import Mathlib

/-!
Shallow embedding of `src/ddl_generator.py` (the final iteration of the
DDL generator): the type-conversion function `convert_data_type`, the
single-pass DDL assembler `generate_ddl`, and the header renderer.
Strings are modelled as Lean `String`, Python's unbounded `int` as `Int`,
Python exceptions (`ValueError` from `int(...)`) as `Except String`.
The module-level counter `count_unknown_data_type` is threaded explicitly
as state.
-/

namespace DDLGen

/-! ## Python string primitives -/

/-- The whitespace characters stripped by Python's `str.strip()`
(restricted to the ASCII range, which covers all inputs of interest). -/
def isPySpace (c : Char) : Bool :=
  c = ' ' || c = '\t' || c = '\n' || c = '\r' || c = '\x0b' || c = '\x0c'

/-- `str.strip()` on a character list: drop leading and trailing whitespace. -/
def pyStripList (l : List Char) : List Char :=
  ((l.dropWhile isPySpace).reverse.dropWhile isPySpace).reverse

/-- Scan for the next `)` with no intervening newline (Python `re`'s `.`
does not match a newline); on success return the remainder after it.
Models the end of a minimal match of the pattern `\(.*?\)`. -/
def findClose : List Char → Option (List Char)
  | [] => none
  | c :: rest =>
    if c = ')' then some rest
    else if c = '\n' then none
    else findClose rest

/-- Fuel-indexed body of `stripParens`.  Every step consumes at least one
character and one unit of fuel, so fuel `l.length` always suffices; the
fuel only makes the recursion structural. -/
def stripParensFuel : Nat → List Char → List Char
  | 0, l => l
  | _ + 1, [] => []
  | fuel + 1, c :: rest =>
    if c = '(' then
      match findClose rest with
      | some rest2 => stripParensFuel fuel rest2
      | none => '(' :: stripParensFuel fuel rest
    else
      c :: stripParensFuel fuel rest

/-- `re.sub(r"\(.*?\)", "", s)` on a character list: repeatedly delete a
minimal parenthesized span; an unmatched `(` is kept verbatim. -/
def stripParens (l : List Char) : List Char :=
  stripParensFuel l.length l

/-- `re.sub(r"\(.*?\)", "", s).strip().upper()` from line 81 of the source
(uppercasing characterwise; the inputs of interest are ASCII). -/
def pyCleanType (s : String) : String :=
  String.mk ((pyStripList (stripParens s.data)).map Char.toUpper)

/-- Digits of a Python integer literal after the first: each underscore
must be followed by a digit (single underscores between digits). -/
def pyDigitsTail : List Char → Bool
  | [] => true
  | '_' :: c :: rest => c.isDigit && pyDigitsTail rest
  | c :: rest => c.isDigit && pyDigitsTail rest

/-- A non-empty digit group as accepted by Python's `int()`. -/
def pyDigits : List Char → Bool
  | [] => false
  | c :: rest => c.isDigit && pyDigitsTail rest

/-- Numeric value of a digit group (underscores skipped). -/
def digitsVal (l : List Char) : Nat :=
  l.foldl (fun acc c => if c = '_' then acc else acc * 10 + (c.toNat - '0'.toNat)) 0

/-- Python's `int(s)`: optional surrounding whitespace, optional sign,
then a digit group; `none` models the `ValueError` raised otherwise. -/
def pyInt (s : String) : Option Int :=
  match pyStripList s.data with
  | '+' :: rest => if pyDigits rest then some (digitsVal rest) else none
  | '-' :: rest => if pyDigits rest then some (-(digitsVal rest : Int)) else none
  | l => if pyDigits l then some (digitsVal l) else none

/-! ## Dialect mapping tables (lines 17–62) -/

def ORACLE_TYPE_MAPPING : List (String × String) :=
  [("BLOB", "BYTES"), ("CHAR", "STRING"), ("CLOB", "STRING"), ("DATE", "DATE"),
   ("NUMBER", "NUMERIC"), ("RAW", "BYTES"), ("TIMESTAMP", "TIMESTAMP"),
   ("VARCHAR2", "STRING"), ("FLOAT", "FLOAT64")]

def POSTGRESQL_TYPE_MAPPING : List (String × String) :=
  [("CHARACTER VARYING", "STRING"), ("CHARACTER", "STRING"), ("TEXT", "STRING"),
   ("BIGINT", "NUMERIC"), ("NUMERIC", "NUMERIC"), ("INTEGER", "NUMERIC"),
   ("DATE", "DATE"), ("TIMESTAMP WITHOUT TIME ZONE", "TIMESTAMP"),
   ("TIMESTAMP WITH TIME ZONE", "TIMESTAMP"), ("BOOLEAN", "BOOL")]

def MSSQL_TYPE_MAPPING : List (String × String) :=
  [("INT", "INT64"), ("NVARCHAR", "STRING"), ("DATETIME", "DATETIME"),
   ("BIT", "BOOL"), ("UNIQUEIDENTIFIER", "STRING"), ("BIGINT", "INT64"),
   ("SMALLINT", "INT64"), ("TINYINT", "INT64"), ("NUMERIC", "NUMERIC"),
   ("DECIMAL", "NUMERIC"), ("CHAR", "STRING"), ("IMAGE", "BYTES"),
   ("VARCHAR", "STRING"), ("DATE", "DATE"), ("DATETIME2", "TIMESTAMP"),
   ("FLOAT", "FLOAT64"), ("MONEY", "NUMERIC"), ("NTEXT", "STRING"),
   ("SMALLDATETIME", "DATETIME")]

/-! ## convert_data_type (lines 65–108) -/

/-- Result of one `convert_data_type` call: the produced type string,
whether the unknown-type counter was incremented (with its
`logging.warning` diagnostic), and whether the capacity-overflow
`FLOAT64` diagnostic was emitted. -/
structure ConvertResult where
  bq_type : String
  unknown : Bool
  capacity_warning : Bool
  deriving DecidableEq, Repr

/-- `convert_data_type(data_type, data_length, data_precision, data_scale,
type_mapping)`.  Mirrors the Python `if/elif` chain, including the
short-circuit evaluation of `int(data_precision) <= 38 and
int(data_scale) <= 9` / `int(data_precision) <= 76 or int(data_scale) <= 38`:
`int()` is only applied to a field when Python would evaluate it, and a
`ValueError` there aborts the call (`.error`). -/
def convert_data_type (data_type data_length data_precision data_scale : String)
    (type_mapping : List (String × String)) : Except String ConvertResult :=
  let dt := pyCleanType data_type
  match List.lookup dt type_mapping with
  | none => .ok ⟨"STRING", true, false⟩
  | some bq =>
    if bq = "NUMERIC" then
      if data_precision ≠ "" ∧ data_scale ≠ "" then
        match pyInt data_precision with
        | none => .error "ValueError: invalid int for data_precision"
        | some p =>
          if p ≤ 38 then
            match pyInt data_scale with
            | none => .error "ValueError: invalid int for data_scale"
            | some s =>
              if s ≤ 9 then
                .ok ⟨"NUMERIC(" ++ data_precision ++ ", " ++ data_scale ++ ")", false, false⟩
              else
                .ok ⟨"BIGNUMERIC(" ++ data_precision ++ ", " ++ data_scale ++ ")", false, false⟩
          else if p ≤ 76 then
            .ok ⟨"BIGNUMERIC(" ++ data_precision ++ ", " ++ data_scale ++ ")", false, false⟩
          else
            match pyInt data_scale with
            | none => .error "ValueError: invalid int for data_scale"
            | some s =>
              if s ≤ 38 then
                .ok ⟨"BIGNUMERIC(" ++ data_precision ++ ", " ++ data_scale ++ ")", false, false⟩
              else
                .ok ⟨"FLOAT64", false, true⟩
      else if data_precision ≠ "" then
        .ok ⟨"NUMERIC(" ++ data_precision ++ ")", false, false⟩
      else
        .ok ⟨"NUMERIC", false, false⟩
    else if bq = "STRING" ∧ data_length ≠ "" then
      .ok ⟨"STRING(" ++ data_length ++ ")", false, false⟩
    else
      .ok ⟨bq, false, false⟩

/-! ## generate_ddl (lines 111–209)

The external CSV collaborator is out of scope (spec §1): `generate_ddl`
consumes the ordered sequence of rows the `csv.DictReader` would yield,
one `Row` per data row with the string value of each required column. -/

/-- One CSV row as seen by the loop body of `generate_ddl`. -/
structure Row where
  bq_ods : String
  column_name : String
  data_type : String
  data_length : String
  data_precision : String
  data_scale : String
  nullable : String
  deriving DecidableEq, Repr

/-- One piece of DDL text appended by `generate_ddl`: a table opening
(line 151), a formatted column line (lines 167–181), or a closing
annotation (line 149 mid-stream with `isFinal = false`, line 184 for the
unconditional final close with `isFinal = true`). -/
inductive DdlEvent where
  | openTable : String → DdlEvent
  | columnLine : String → DdlEvent
  | closeTable : Nat → Bool → DdlEvent
  deriving DecidableEq, Repr

/-- Insertion-ordered counter (`collections.Counter` under Python's
insertion-ordered dict): `c[k] += 1` bumps an existing entry in place or
appends a fresh entry with count 1. -/
def bumpCount (k : String) : List (String × Nat) → List (String × Nat)
  | [] => [(k, 1)]
  | (k', n) :: rest => if k' = k then (k', n + 1) :: rest else (k', n) :: bumpCount k rest

/-- Count held by an insertion-ordered counter for a key (0 when absent). -/
def lookupCount (k : String) : List (String × Nat) → Nat
  | [] => 0
  | (k', n) :: rest => if k' = k then n else lookupCount k rest

/-- The loop state of `generate_ddl`: the emitted DDL as an event list,
the cursor variables `current_table` / `count_table_column`, the totals,
the two counters, and the module-level global `count_unknown_data_type`. -/
structure GenState where
  events : List DdlEvent
  current_table : String
  count_table_column : Nat
  count_table : Nat
  count_total_column : Nat
  count_unknown : Nat
  data_type_counts : List (String × Nat)
  bq_ods_counts : List (String × Nat)
  deriving DecidableEq, Repr

/-- State before the loop (lines 135–144); `c0` is the value the global
`count_unknown_data_type` holds when `generate_ddl` is entered. -/
def initState (c0 : Nat) : GenState :=
  { events := [], current_table := "", count_table_column := 0, count_table := 0,
    count_total_column := 0, count_unknown := c0, data_type_counts := [],
    bq_ods_counts := [] }

/-- `row["COLUMN_NAME"].replace("$", "")` (line 156). -/
def sanitizeName (s : String) : String :=
  String.mk (s.data.filter (fun c => c ≠ '$'))

/-- `n` spaces. -/
def spaces (n : Nat) : String :=
  String.mk (List.replicate n ' ')

/-- The formatted column line of lines 167–181: declaration, optional
` NOT NULL`, comma, alignment padding, and the audit comment echoing the
raw type/length/precision/scale. -/
def columnLineText (column_name data_type : String) (r : Row) : String :=
  let decl := "  `" ++ column_name ++ "` " ++ data_type
  let padding := max 1 (40 - decl.length - 1)
  let decl := if r.nullable = "false" then decl ++ " NOT NULL" else decl
  let padding := if r.nullable = "false" then max 1 (padding - 9) else padding
  decl ++ "," ++ spaces padding ++ "-- " ++ r.data_type ++ " " ++ r.data_length ++ "-"
    ++ r.data_precision ++ "-" ++ r.data_scale ++ "\n"

/-- The table-boundary handling of lines 147–154: on a table-name change,
close the previous block (only when `current_table` is truthy, i.e.
non-empty) and reset the per-block column count, then open a new block,
bump the table-name counter, move the cursor and count the table. -/
def blockStep (st : GenState) (r : Row) : GenState :=
  if r.bq_ods ≠ st.current_table then
    let st' :=
      if st.current_table ≠ "" then
        { st with events := st.events ++ [.closeTable st.count_table_column false],
                  count_table_column := 0 }
      else st
    { st' with events := st'.events ++ [.openTable r.bq_ods],
               bq_ods_counts := bumpCount r.bq_ods st'.bq_ods_counts,
               current_table := r.bq_ods,
               count_table := st'.count_table + 1 }
  else st

/-- The column handling of lines 156–183: emit the formatted column line,
bump the raw-type counter, bump both column counters, and apply the
unknown-type increment performed inside `convert_data_type`. -/
def columnStep (st : GenState) (r : Row) (cr : ConvertResult) : GenState :=
  { st with
    events :=
      st.events ++ [.columnLine (columnLineText (sanitizeName r.column_name) cr.bq_type r)],
    data_type_counts := bumpCount r.data_type st.data_type_counts,
    count_total_column := st.count_total_column + 1,
    count_table_column := st.count_table_column + 1,
    count_unknown := st.count_unknown + (if cr.unknown then 1 else 0) }

/-- One iteration of the `for row in reader` loop (lines 145–183).
A `ValueError` from `convert_data_type` propagates (`.error`). -/
def stepRow (m : List (String × String)) (st : GenState) (r : Row) :
    Except String GenState :=
  match convert_data_type r.data_type r.data_length r.data_precision r.data_scale m with
  | .error e => .error e
  | .ok cr => .ok (columnStep (blockStep st r) r cr)

/-- The whole `for` loop. -/
def genRows (m : List (String × String)) (st : GenState) :
    List Row → Except String GenState
  | [] => .ok st
  | r :: rest =>
    match stepRow m st r with
    | .error e => .error e
    | .ok st' => genRows m st' rest

/-- The unconditional final close of line 184. -/
def finalize (st : GenState) : GenState :=
  { st with events := st.events ++ [.closeTable st.count_table_column true] }

/-- `generate_ddl(csv_file, type_mapping)` on the row sequence read from
the file, with the global `count_unknown_data_type` entering at `c0`.
Returns the final state: emitted DDL events plus all statistics. -/
def generate_ddl (rows : List Row) (m : List (String × String)) (c0 : Nat) :
    Except String GenState :=
  (genRows m (initState c0) rows).map finalize

/-! ## Rendering (lines 149–209) -/

/-- The exact text each event contributes to the `ddl` string. -/
def renderEvent : DdlEvent → String
  | .openTable n => "CREATE OR REPLACE TABLE `" ++ n ++ "` (\n"
  | .columnLine s => s
  | .closeTable n false => "); -- Column: " ++ toString n ++ "\n\n"
  | .closeTable n true => "); -- Column: " ++ toString n

/-- The `ddl` string accumulated by the loop. -/
def renderBody (evs : List DdlEvent) : String :=
  String.join (evs.map renderEvent)

/-- The entries of `bq_ods_counts` with count > 1 (line 188's filter). -/
def duplicatedEntries (st : GenState) : List (String × Nat) :=
  st.bq_ods_counts.filter (fun p => decide (1 < p.2))

/-- One `- name: count` line. -/
def countLine (p : String × Nat) : String :=
  "- " ++ p.1 ++ ": " ++ toString p.2

/-- The `ddl_info` header comment (lines 196–207); `t` stands for the
`datetime.now().isoformat()` timestamp, supplied externally. -/
def render_ddl_info (t : String) (st : GenState) : String :=
  "/*\n" ++
  "Generated at: " ++ t ++ "\n" ++
  "Total table: " ++ toString st.count_table ++ "\n" ++
  "Total column: " ++ toString st.count_total_column ++ "\n" ++
  "Total unknown data type: " ++ toString st.count_unknown ++ "\n\n" ++
  "Duplicated BQ_ODS:" ++
  (if duplicatedEntries st = [] then " None"
   else "\n" ++ String.intercalate "\n" ((duplicatedEntries st).map countLine)) ++
  "\n\n" ++
  "Data type counts:\n" ++
  String.intercalate "\n" (st.data_type_counts.map countLine) ++
  "\n*/\n\n"

/-- The full returned document: `ddl_info + ddl` (line 209). -/
def renderDoc (t : String) (st : GenState) : String :=
  render_ddl_info t st ++ renderBody st.events

/-! ## The batch driver's per-file step (lines 256–261)

Before each call to `generate_ddl` the driver resets the global counter:
`count_unknown_data_type = 0` (line 258). `g` is the value the global
holds when the file's processing starts (whatever a previous run left). -/

/-- Line 258: the reset discards the incoming global value. -/
def resetCounter (_g : Nat) : Nat := 0

/-- One file of the batch loop: reset the global, run `generate_ddl`,
render the document with the file's timestamp `t`; returns the document
text together with the statistics state. -/
def processFile (g : Nat) (t : String) (rows : List Row)
    (m : List (String × String)) : Except String (String × GenState) :=
  (generate_ddl rows m (resetCounter g)).map (fun st => (renderDoc t st, st))

/-! ## Derived counters over the emitted events -/

/-- The counts reported by the closing annotations, in emission order. -/
def closeCounts (evs : List DdlEvent) : List Nat :=
  evs.filterMap (fun e => match e with | .closeTable n _ => some n | _ => none)

/-- Whether an event is a `CREATE OR REPLACE TABLE` opening. -/
def isOpen : DdlEvent → Bool
  | .openTable _ => true
  | _ => false

/-- Number of `CREATE OR REPLACE TABLE` openings emitted. -/
def countOpens (evs : List DdlEvent) : Nat :=
  (evs.filter isOpen).length

/-- Whether an event opens a table block named `k`. -/
def isOpenName (k : String) : DdlEvent → Bool
  | .openTable n => n = k
  | _ => false

/-- Number of table blocks opened under the name `k`. -/
def countOpensName (k : String) (evs : List DdlEvent) : Nat :=
  (evs.filter (isOpenName k)).length

/-- Lengths of the maximal runs of equal consecutive names, continuing a
run of the name `cur` that already has `cnt` members. -/
def runsFrom (cur : String) (cnt : Nat) : List String → List Nat
  | [] => [cnt]
  | n :: rest => if n = cur then runsFrom cur (cnt + 1) rest else cnt :: runsFrom n 1 rest

/-- Lengths of the maximal runs of equal consecutive names. -/
def runLengths : List String → List Nat
  | [] => []
  | n :: rest => runsFrom n 1 rest

/-- Whether a row's raw type is absent from the mapping table. -/
def isUnknownRow (m : List (String × String)) (r : Row) : Bool :=
  (List.lookup (pyCleanType r.data_type) m).isNone

/-- The keys of an insertion-ordered counter are pairwise distinct (true
of every counter the assembler builds, mirroring Python dict keys). -/
def KeysNodup (l : List (String × Nat)) : Prop :=
  (l.map Prod.fst).Nodup

/-- Extract the state of a successful run (used to name concrete results
in closed statements; the fallback is never reached there). -/
def okD (e : Except String GenState) : GenState :=
  match e with
  | .ok st => st
  | .error _ => initState 0

/-! ## Sample rows for closed statements -/

def rowA : Row := ⟨"T1", "COL_A", "VARCHAR2", "50", "", "", "false"⟩

def rowB : Row := ⟨"T1", "COL_B", "NUMBER", "", "10", "2", "true"⟩

def rowC : Row := ⟨"T2", "COL_C", "DATE", "", "", "", "true"⟩

def rowEmptyName : Row := ⟨"", "C", "DATE", "", "", "", "true"⟩

def rowTName : Row := ⟨"T", "C", "DATE", "", "", "", "true"⟩

def rowT1Date : Row := ⟨"T1", "A", "DATE", "", "", "", "true"⟩

def rowT2Date : Row := ⟨"T2", "B", "DATE", "", "", "", "true"⟩

def rowT1Again : Row := ⟨"T1", "C", "DATE", "", "", "", "true"⟩

def rowXml : Row := ⟨"T1", "SYSID", "XMLTYPE", "", "", "", "true"⟩

/-! ## Helper lemmas: event counters -/

@[simp]
theorem closeCounts_append (a b : List DdlEvent) :
    closeCounts (a ++ b) = closeCounts a ++ closeCounts b := by
  simp [closeCounts]

@[simp]
theorem closeCounts_nil : closeCounts [] = [] := rfl

@[simp]
theorem closeCounts_openTable (n : String) (evs : List DdlEvent) :
    closeCounts (.openTable n :: evs) = closeCounts evs := rfl

@[simp]
theorem closeCounts_columnLine (s : String) (evs : List DdlEvent) :
    closeCounts (.columnLine s :: evs) = closeCounts evs := rfl

@[simp]
theorem closeCounts_closeTable (n : Nat) (b : Bool) (evs : List DdlEvent) :
    closeCounts (.closeTable n b :: evs) = n :: closeCounts evs := rfl

@[simp]
theorem countOpens_append (a b : List DdlEvent) :
    countOpens (a ++ b) = countOpens a + countOpens b := by
  simp [countOpens]

@[simp]
theorem countOpens_nil : countOpens [] = 0 := rfl

@[simp]
theorem countOpens_openTable (n : String) (evs : List DdlEvent) :
    countOpens (.openTable n :: evs) = countOpens evs + 1 := by
  simp [countOpens, List.filter, isOpen]

@[simp]
theorem countOpens_columnLine (s : String) (evs : List DdlEvent) :
    countOpens (.columnLine s :: evs) = countOpens evs := rfl

@[simp]
theorem countOpens_closeTable (n : Nat) (b : Bool) (evs : List DdlEvent) :
    countOpens (.closeTable n b :: evs) = countOpens evs := rfl

@[simp]
theorem countOpensName_append (k : String) (a b : List DdlEvent) :
    countOpensName k (a ++ b) = countOpensName k a + countOpensName k b := by
  simp [countOpensName]

@[simp]
theorem countOpensName_nil (k : String) : countOpensName k [] = 0 := rfl

@[simp]
theorem countOpensName_openTable (k n : String) (evs : List DdlEvent) :
    countOpensName k (.openTable n :: evs)
      = countOpensName k evs + (if n = k then 1 else 0) := by
  by_cases h : n = k <;> simp [countOpensName, isOpenName, List.filter, h]

@[simp]
theorem countOpensName_columnLine (k s : String) (evs : List DdlEvent) :
    countOpensName k (.columnLine s :: evs) = countOpensName k evs := rfl

@[simp]
theorem countOpensName_closeTable (k : String) (n : Nat) (b : Bool)
    (evs : List DdlEvent) :
    countOpensName k (.closeTable n b :: evs) = countOpensName k evs := rfl

/-! ## Helper lemmas: insertion-ordered counters -/

theorem lookupCount_bumpCount (k q : String) (l : List (String × Nat)) :
    lookupCount q (bumpCount k l) = lookupCount q l + (if k = q then 1 else 0) := by
  induction l with
  | nil =>
    simp [bumpCount, lookupCount]
  | cons hd tl ih =>
    obtain ⟨a, n⟩ := hd
    by_cases h1 : a = k
    · subst h1
      by_cases h2 : a = q <;> simp [bumpCount, lookupCount, h2]
    · by_cases h2 : a = q
      · subst h2
        have h3 : ¬ k = a := fun h' => h1 h'.symm
        simp [bumpCount, lookupCount, h1, h3]
      · simp [bumpCount, lookupCount, h1, h2, ih]

theorem lookupCount_pos_mem (k : String) (l : List (String × Nat))
    (h : 0 < lookupCount k l) : (k, lookupCount k l) ∈ l := by
  induction l with
  | nil => simp [lookupCount] at h
  | cons hd tl ih =>
    obtain ⟨a, n⟩ := hd
    by_cases h1 : a = k
    · subst h1
      simp [lookupCount]
    · simp only [lookupCount, if_neg h1] at h ⊢
      exact List.mem_cons_of_mem _ (ih h)

theorem mem_lookupCount (l : List (String × Nat)) (h : KeysNodup l) (k : String)
    (c : Nat) (hm : (k, c) ∈ l) : lookupCount k l = c := by
  induction l with
  | nil => simp at hm
  | cons hd tl ih =>
    obtain ⟨a, n⟩ := hd
    simp only [KeysNodup, List.map_cons, List.nodup_cons] at h
    rcases List.mem_cons.mp hm with heq | htl
    · obtain ⟨rfl, rfl⟩ := Prod.mk.injEq .. ▸ heq
      simp [lookupCount]
    · have hak : a ≠ k := by
        intro hak
        subst hak
        exact h.1 (List.mem_map.mpr ⟨(a, c), htl, rfl⟩)
      simp only [lookupCount, if_neg hak]
      exact ih h.2 htl

theorem mem_keys_bumpCount (a k : String) (l : List (String × Nat))
    (h : a ∈ (bumpCount k l).map Prod.fst) : a ∈ l.map Prod.fst ∨ a = k := by
  induction l with
  | nil => simpa [bumpCount] using h
  | cons hd tl ih =>
    obtain ⟨b, n⟩ := hd
    by_cases h1 : b = k
    · subst h1
      simp [bumpCount] at h ⊢
      tauto
    · simp only [bumpCount, if_neg h1, List.map_cons, List.mem_cons] at h ⊢
      rcases h with h | h
      · exact Or.inl (Or.inl h)
      · rcases ih h with h' | h'
        · exact Or.inl (Or.inr h')
        · exact Or.inr h'

theorem keysNodup_bumpCount (k : String) (l : List (String × Nat))
    (h : KeysNodup l) : KeysNodup (bumpCount k l) := by
  induction l with
  | nil => simp [bumpCount, KeysNodup]
  | cons hd tl ih =>
    obtain ⟨b, n⟩ := hd
    simp only [KeysNodup, List.map_cons, List.nodup_cons] at h
    by_cases h1 : b = k
    · subst h1
      simpa [bumpCount, KeysNodup] using h
    · simp only [bumpCount, if_neg h1, KeysNodup, List.map_cons, List.nodup_cons]
      refine ⟨fun hb => ?_, ih h.2⟩
      rcases mem_keys_bumpCount b k tl hb with h' | h'
      · exact h.1 h'
      · exact h1 h'

/-! ## Helper lemmas: the conversion and the loop step -/

/-- A successful conversion flags an unknown type exactly when the
cleaned raw type is absent from the mapping table. -/
theorem convert_ok_unknown (m : List (String × String)) (dt dl dp ds : String)
    (cr : ConvertResult)
    (h : convert_data_type dt dl dp ds m = .ok cr) :
    cr.unknown = (List.lookup (pyCleanType dt) m).isNone := by
  cases hlk : List.lookup (pyCleanType dt) m with
  | none =>
    simp only [convert_data_type, hlk, Except.ok.injEq] at h
    subst h
    simp
  | some bq =>
    simp only [convert_data_type, hlk] at h
    simp only [Option.isNone_some]
    rcases hdp : pyInt dp with _ | p <;> rcases hds : pyInt ds with _ | s <;>
        simp only [hdp, hds] at h <;> try split_ifs at h
    all_goals
      try simp only [Except.ok.injEq] at h
    all_goals
      rw [← h]

theorem stepRow_ok (m : List (String × String)) (st : GenState) (r : Row)
    (st₁ : GenState) :
    stepRow m st r = .ok st₁ ↔
      ∃ cr, convert_data_type r.data_type r.data_length r.data_precision r.data_scale m
          = .ok cr ∧ st₁ = columnStep (blockStep st r) r cr := by
  unfold stepRow
  cases hc : convert_data_type r.data_type r.data_length r.data_precision r.data_scale m
      <;> simp [hc, eq_comm]

theorem stepRow_error (m : List (String × String)) (st : GenState) (r : Row)
    (e : String) (h : stepRow m st r = .error e) :
    convert_data_type r.data_type r.data_length r.data_precision r.data_scale m
      = .error e := by
  unfold stepRow at h
  cases hc : convert_data_type r.data_type r.data_length r.data_precision r.data_scale m
      <;> simp [hc] at h <;> simp [h]

theorem blockStep_data_type_counts (st : GenState) (r : Row) :
    (blockStep st r).data_type_counts = st.data_type_counts := by
  unfold blockStep
  split_ifs <;> rfl

theorem blockStep_count_unknown (st : GenState) (r : Row) :
    (blockStep st r).count_unknown = st.count_unknown := by
  unfold blockStep
  split_ifs <;> rfl

/-- The two possible effects of the table-boundary step. -/
theorem blockStep_cases (st : GenState) (r : Row) :
    (r.bq_ods = st.current_table ∧ blockStep st r = st) ∨
    (r.bq_ods ≠ st.current_table ∧
      blockStep st r =
        { st with
          events := st.events
            ++ (if st.current_table ≠ "" then [.closeTable st.count_table_column false]
                else [])
            ++ [.openTable r.bq_ods],
          bq_ods_counts := bumpCount r.bq_ods st.bq_ods_counts,
          current_table := r.bq_ods,
          count_table := st.count_table + 1,
          count_table_column :=
            if st.current_table ≠ "" then 0 else st.count_table_column }) := by
  by_cases h : r.bq_ods = st.current_table
  · exact Or.inl ⟨h, by unfold blockStep; simp [h]⟩
  · refine Or.inr ⟨h, ?_⟩
    unfold blockStep
    by_cases h2 : st.current_table = ""
    · have h' : ¬ r.bq_ods = "" := h2 ▸ h
      simp [h', h2]
    · simp [h, h2]

/-- The loop state after the final close of line 184. -/
theorem generate_ddl_ok (rows : List Row) (m : List (String × String)) (c0 : Nat)
    (st : GenState) :
    generate_ddl rows m c0 = .ok st ↔
      ∃ st₀, genRows m (initState c0) rows = .ok st₀ ∧ st = finalize st₀ := by
  unfold generate_ddl
  cases hg : genRows m (initState c0) rows <;> simp [hg, Except.map, eq_comm]

theorem genRows_cons_ok (m : List (String × String)) (st : GenState) (r : Row)
    (rest : List Row) (st' : GenState) (h : genRows m st (r :: rest) = .ok st') :
    ∃ st₁, stepRow m st r = .ok st₁ ∧ genRows m st₁ rest = .ok st' := by
  cases hs : stepRow m st r with
  | error e =>
    simp only [genRows, hs] at h
    exact Except.noConfusion h
  | ok st₁ =>
    simp only [genRows, hs] at h
    exact ⟨st₁, rfl, h⟩

/-! ## Helper lemmas: loop invariants -/

/-- The raw-type frequency counter ends up holding, for every raw type,
exactly the number of processed rows that carried it. -/
theorem genRows_data_type_counts (m : List (String × String)) :
    ∀ (rows : List Row) (st st' : GenState), genRows m st rows = .ok st' →
      ∀ k, lookupCount k st'.data_type_counts
        = lookupCount k st.data_type_counts
          + (rows.filter (fun r => r.data_type == k)).length := by
  intro rows
  induction rows with
  | nil =>
    intro st st' h k
    simp only [genRows, Except.ok.injEq] at h
    subst h
    simp
  | cons r rest ih =>
    intro st st' h k
    obtain ⟨st₁, hs, hrest⟩ := genRows_cons_ok m st r rest st' h
    obtain ⟨cr, hcr, hst₁⟩ := (stepRow_ok m st r st₁).mp hs
    have h2 : lookupCount k st₁.data_type_counts
        = lookupCount k st.data_type_counts + (if r.data_type = k then 1 else 0) := by
      rw [hst₁]
      show lookupCount k (bumpCount r.data_type (blockStep st r).data_type_counts) = _
      rw [lookupCount_bumpCount, blockStep_data_type_counts]
    rw [ih st₁ st' hrest k, h2, List.filter_cons]
    by_cases hk : r.data_type = k <;> simp [hk] <;> omega

/-- The global unknown-type counter ends up incremented by exactly the
number of processed rows whose raw type is absent from the table. -/
theorem genRows_count_unknown (m : List (String × String)) :
    ∀ (rows : List Row) (st st' : GenState), genRows m st rows = .ok st' →
      st'.count_unknown
        = st.count_unknown + (rows.filter (isUnknownRow m)).length := by
  intro rows
  induction rows with
  | nil =>
    intro st st' h
    simp only [genRows, Except.ok.injEq] at h
    subst h
    simp
  | cons r rest ih =>
    intro st st' h
    obtain ⟨st₁, hs, hrest⟩ := genRows_cons_ok m st r rest st' h
    obtain ⟨cr, hcr, hst₁⟩ := (stepRow_ok m st r st₁).mp hs
    have hu : cr.unknown = isUnknownRow m r :=
      convert_ok_unknown m r.data_type r.data_length r.data_precision r.data_scale cr hcr
    have h2 : st₁.count_unknown
        = st.count_unknown + (if isUnknownRow m r then 1 else 0) := by
      rw [hst₁]
      show (blockStep st r).count_unknown + (if cr.unknown then 1 else 0) = _
      rw [blockStep_count_unknown, hu]
    rw [ih st₁ st' hrest, h2, List.filter_cons]
    cases hk : isUnknownRow m r <;> simp [hk] <;> omega

/-- The table-name counter tracks, for every name, exactly the number of
`CREATE OR REPLACE TABLE` openings emitted for it, and its keys stay
pairwise distinct. -/
theorem genRows_bq_ods_counts (m : List (String × String)) :
    ∀ (rows : List Row) (st st' : GenState), genRows m st rows = .ok st' →
      KeysNodup st.bq_ods_counts →
      (∀ k, lookupCount k st.bq_ods_counts = countOpensName k st.events) →
      KeysNodup st'.bq_ods_counts ∧
        ∀ k, lookupCount k st'.bq_ods_counts = countOpensName k st'.events := by
  intro rows
  induction rows with
  | nil =>
    intro st st' h hnd hlc
    simp only [genRows, Except.ok.injEq] at h
    subst h
    exact ⟨hnd, hlc⟩
  | cons r rest ih =>
    intro st st' h hnd hlc
    obtain ⟨st₁, hs, hrest⟩ := genRows_cons_ok m st r rest st' h
    obtain ⟨cr, hcr, hst₁⟩ := (stepRow_ok m st r st₁).mp hs
    rcases blockStep_cases st r with ⟨hb, heq⟩ | ⟨hb, heq⟩
    · refine ih st₁ st' hrest ?_ ?_
      · rw [hst₁, heq]
        exact hnd
      · intro k
        rw [hst₁, heq]
        show lookupCount k st.bq_ods_counts = countOpensName k (st.events ++ _)
        simp [hlc k]
    · refine ih st₁ st' hrest ?_ ?_
      · rw [hst₁, heq]
        exact keysNodup_bumpCount _ _ hnd
      · intro k
        rw [hst₁, heq]
        show lookupCount k (bumpCount r.bq_ods st.bq_ods_counts)
          = countOpensName k ((st.events ++ _ ++ [.openTable r.bq_ods]) ++ _)
        rw [lookupCount_bumpCount]
        split_ifs <;> simp_all [countOpensName, isOpenName]

/-- The closing-annotation counts (plus the pending per-block counter)
track the run lengths of the consecutive-equal table names, and every
name change adds exactly one opening — provided the cursor and all the
table names are non-empty. -/
theorem genRows_runs (m : List (String × String)) :
    ∀ (rows : List Row) (st st' : GenState), genRows m st rows = .ok st' →
      st.current_table ≠ "" → (∀ r ∈ rows, r.bq_ods ≠ "") →
      closeCounts st'.events ++ [st'.count_table_column]
          = closeCounts st.events
            ++ runsFrom st.current_table st.count_table_column
                (rows.map (fun r => r.bq_ods)) ∧
        countOpens st'.events + 1
          = countOpens st.events
            + (runsFrom st.current_table st.count_table_column
                (rows.map (fun r => r.bq_ods))).length := by
  intro rows
  induction rows with
  | nil =>
    intro st st' h _ _
    simp only [genRows, Except.ok.injEq] at h
    subst h
    simp [runsFrom]
  | cons r rest ih =>
    intro st st' h hcur hall
    obtain ⟨st₁, hs, hrest⟩ := genRows_cons_ok m st r rest st' h
    obtain ⟨cr, hcr, hst₁⟩ := (stepRow_ok m st r st₁).mp hs
    have hr : r.bq_ods ≠ "" := hall r (List.mem_cons_self r rest)
    have hall' : ∀ x ∈ rest, x.bq_ods ≠ "" :=
      fun x hx => hall x (List.mem_cons_of_mem r hx)
    rcases blockStep_cases st r with ⟨hb, heq⟩ | ⟨hb, heq⟩
    · have hcur₁ : st₁.current_table = st.current_table := by
        simp [hst₁, heq, columnStep]
      have hctc₁ : st₁.count_table_column = st.count_table_column + 1 := by
        simp [hst₁, heq, columnStep]
      have hclose₁ : closeCounts st₁.events = closeCounts st.events := by
        simp [hst₁, heq, columnStep]
      have hopen₁ : countOpens st₁.events = countOpens st.events := by
        simp [hst₁, heq, columnStep]
      obtain ⟨ihc, iho⟩ := ih st₁ st' hrest (by rw [hcur₁]; exact hcur) hall'
      rw [hclose₁, hcur₁, hctc₁] at ihc
      rw [hopen₁, hcur₁, hctc₁] at iho
      constructor
      · rw [ihc, List.map_cons, runsFrom, if_pos hb]
      · rw [iho, List.map_cons, runsFrom, if_pos hb]
    · have hcur₁ : st₁.current_table = r.bq_ods := by
        simp [hst₁, heq, columnStep]
      have hctc₁ : st₁.count_table_column = 1 := by
        simp [hst₁, heq, columnStep, hcur]
      have hclose₁ : closeCounts st₁.events
          = closeCounts st.events ++ [st.count_table_column] := by
        simp [hst₁, heq, columnStep, hcur]
      have hopen₁ : countOpens st₁.events = countOpens st.events + 1 := by
        simp [hst₁, heq, columnStep, hcur]
      obtain ⟨ihc, iho⟩ := ih st₁ st' hrest (by rw [hcur₁]; exact hr) hall'
      rw [hclose₁, hcur₁, hctc₁] at ihc
      rw [hopen₁, hcur₁, hctc₁] at iho
      constructor
      · rw [ihc, List.map_cons, runsFrom, if_neg hb]
        simp
      · rw [iho, List.map_cons, runsFrom, if_neg hb]
        simp
        omega

/-! ## Claim theorems -/

/-- C1: for a record whose raw type resolves to base type NUMERIC with
both precision and scale non-empty (and parseable), the tiered
numeric-capacity rule applies — `NUMERIC(p, s)` when `p ≤ 38 ∧ s ≤ 9`,
else `BIGNUMERIC(p, s)` when `p ≤ 76 ∨ s ≤ 38`, else `FLOAT64` with the
capacity diagnostic; with only precision non-empty the result is
`NUMERIC(p)`. -/
theorem claim_C1_numeric_tiering (m : List (String × String)) (dt dl dp ds : String)
    (h : List.lookup (pyCleanType dt) m = some "NUMERIC") :
    (∀ p s : Int, dp ≠ "" → ds ≠ "" → pyInt dp = some p → pyInt ds = some s →
      convert_data_type dt dl dp ds m = .ok
        (if p ≤ 38 ∧ s ≤ 9 then
          ⟨"NUMERIC(" ++ dp ++ ", " ++ ds ++ ")", false, false⟩
        else if p ≤ 76 ∨ s ≤ 38 then
          ⟨"BIGNUMERIC(" ++ dp ++ ", " ++ ds ++ ")", false, false⟩
        else ⟨"FLOAT64", false, true⟩)) ∧
    (dp ≠ "" → ds = "" →
      convert_data_type dt dl dp ds m = .ok ⟨"NUMERIC(" ++ dp ++ ")", false, false⟩) := by
  constructor
  · intro p s hp hs hip his
    simp only [convert_data_type, h]
    simp only [hp, hs, hip, his, ne_eq, not_false_iff, and_self, if_true, if_pos]
    split_ifs <;> first | rfl | omega
  · intro hp hs
    subst hs
    simp only [convert_data_type, h]
    simp [hp]

/-- Witness for C1 at Oracle `NUMBER`, precision `10`, scale `2`. -/
theorem claim_C1_witness :
    pyInt "10" = some 10 ∧ pyInt "2" = some 2 ∧
    convert_data_type "NUMBER" "" "10" "2" ORACLE_TYPE_MAPPING =
      .ok ⟨"NUMERIC(10, 2)", false, false⟩ := by
  refine ⟨rfl, rfl, ?_⟩
  have h := (claim_C1_numeric_tiering ORACLE_TYPE_MAPPING "NUMBER" "" "10" "2" rfl).1
    10 2 (by decide) (by decide) rfl rfl
  simpa using h

/-- C9: a record resolving to base type STRING gets `STRING(length)` when
a non-empty length is present and bare `STRING` otherwise; every other
resolved base type except NUMERIC and STRING passes through
unparameterized regardless of length, precision and scale. -/
theorem claim_C9_string_and_passthrough (m : List (String × String))
    (dt dl dp ds t : String) (h : List.lookup (pyCleanType dt) m = some t) :
    (t = "STRING" → convert_data_type dt dl dp ds m =
      .ok ⟨if dl = "" then "STRING" else "STRING(" ++ dl ++ ")", false, false⟩) ∧
    (t ≠ "NUMERIC" → t ≠ "STRING" →
      convert_data_type dt dl dp ds m = .ok ⟨t, false, false⟩) := by
  constructor
  · intro ht
    subst ht
    simp only [convert_data_type, h]
    by_cases hdl : dl = "" <;> simp [hdl]
  · intro ht1 ht2
    simp only [convert_data_type, h]
    simp [ht1, ht2]

/-- Witness for C9: `CHAR` with length 50 gives `STRING(50)`; `DATE`
passes through with precision and scale present but ignored. -/
theorem claim_C9_witness :
    convert_data_type "CHAR" "50" "" "" ORACLE_TYPE_MAPPING =
      .ok ⟨"STRING(50)", false, false⟩ ∧
    convert_data_type "DATE" "7" "3" "1" ORACLE_TYPE_MAPPING =
      .ok ⟨"DATE", false, false⟩ := by
  constructor
  · have h := (claim_C9_string_and_passthrough ORACLE_TYPE_MAPPING
      "CHAR" "50" "" "" "STRING" rfl).1 rfl
    simpa using h
  · exact (claim_C9_string_and_passthrough ORACLE_TYPE_MAPPING
      "DATE" "7" "3" "1" "DATE" rfl).2 (by decide) (by decide)

/-- C10: a record resolving to base type NUMERIC with empty precision but
non-empty scale yields bare `NUMERIC`: the scale is silently ignored, no
parameterization, no error, no diagnostic. -/
theorem claim_C10_scale_ignored (m : List (String × String)) (dt dl ds : String)
    (h : List.lookup (pyCleanType dt) m = some "NUMERIC") (_hs : ds ≠ "") :
    convert_data_type dt dl "" ds m = .ok ⟨"NUMERIC", false, false⟩ := by
  simp only [convert_data_type, h]
  simp

/-- Witness for C10 at Oracle `NUMBER` with scale 5. -/
theorem claim_C10_witness :
    ("5" : String) ≠ "" ∧
    convert_data_type "NUMBER" "" "" "5" ORACLE_TYPE_MAPPING =
      .ok ⟨"NUMERIC", false, false⟩ :=
  ⟨by decide, claim_C10_scale_ignored ORACLE_TYPE_MAPPING "NUMBER" "" "5" rfl (by decide)⟩

/-- C6 counterexample: the record `CHAR` with length `"abc"` — a
non-empty length that is not a non-negative integer — does not raise:
the conversion succeeds and embeds the malformed value verbatim as
`STRING(abc)`. -/
theorem claim_C6_counterexample :
    convert_data_type "CHAR" "abc" "" "" ORACLE_TYPE_MAPPING =
      .ok ⟨"STRING(abc)", false, false⟩ := by
  rfl

/-- C6 (amended): only the NUMERIC branch with both precision and scale
non-empty parses integers, so an error can arise only there; inside that
branch a malformed precision always raises, and a malformed scale raises
exactly when the short-circuit evaluation reaches it — it does for
precision ≤ 38 or precision > 76, while for 38 < precision ≤ 76 the
malformed scale is embedded verbatim in `BIGNUMERIC(precision, scale)`
without error; a malformed lone precision and a malformed STRING length
are likewise embedded verbatim without error. -/
theorem claim_C6_amended_numeric_raise (m : List (String × String))
    (dt dl dp ds : String) :
    (∀ e, convert_data_type dt dl dp ds m = .error e →
      List.lookup (pyCleanType dt) m = some "NUMERIC" ∧ dp ≠ "" ∧ ds ≠ "") ∧
    (List.lookup (pyCleanType dt) m = some "NUMERIC" → dp ≠ "" → ds ≠ "" →
      (pyInt dp = none →
        convert_data_type dt dl dp ds m
          = .error "ValueError: invalid int for data_precision") ∧
      (∀ p : Int, pyInt dp = some p → pyInt ds = none →
        ((p ≤ 38 ∨ 76 < p) →
          convert_data_type dt dl dp ds m
            = .error "ValueError: invalid int for data_scale") ∧
        (38 < p → p ≤ 76 →
          convert_data_type dt dl dp ds m
            = .ok ⟨"BIGNUMERIC(" ++ dp ++ ", " ++ ds ++ ")", false, false⟩))) ∧
    (List.lookup (pyCleanType dt) m = some "NUMERIC" → dp ≠ "" → ds = "" →
      convert_data_type dt dl dp ds m
        = .ok ⟨"NUMERIC(" ++ dp ++ ")", false, false⟩) ∧
    (List.lookup (pyCleanType dt) m = some "STRING" → dl ≠ "" →
      convert_data_type dt dl dp ds m
        = .ok ⟨"STRING(" ++ dl ++ ")", false, false⟩) := by
  refine ⟨?_, ?_, ?_, ?_⟩
  · intro e he
    cases hlk : List.lookup (pyCleanType dt) m with
    | none =>
      simp only [convert_data_type, hlk] at he
      exact Except.noConfusion he
    | some bq =>
      simp only [convert_data_type, hlk] at he
      by_cases h1 : bq = "NUMERIC"
      · subst h1
        by_cases h2 : dp ≠ "" ∧ ds ≠ ""
        · exact ⟨rfl, h2.1, h2.2⟩
        · rw [if_pos rfl, if_neg h2] at he
          split_ifs at he <;> exact Except.noConfusion he
      · rw [if_neg h1] at he
        split_ifs at he <;> exact Except.noConfusion he
  · intro h hp hs
    constructor
    · intro hip
      simp only [convert_data_type, h]
      simp [hp, hs, hip]
    · intro p hip his
      constructor
      · intro hrange
        simp only [convert_data_type, h]
        simp only [hp, hs, ne_eq, not_false_iff, and_self, if_true, if_pos, hip, his]
        rcases hrange with h38 | h76
        · simp [h38]
        · have h1 : ¬ p ≤ 38 := by omega
          have h2 : ¬ p ≤ 76 := by omega
          simp [h1, h2]
      · intro h38 h76
        have h1 : ¬ p ≤ 38 := by omega
        simp only [convert_data_type, h]
        simp [hp, hs, hip, h1, h76]
  · intro h hp hs
    subst hs
    simp only [convert_data_type, h]
    simp [hp]
  · intro h hdl
    simp only [convert_data_type, h]
    simp [hdl]

/-- Witness for C6 (amended) at Oracle `NUMBER`: precision `"abc"`
raises; scale `"abc"` raises when reached (precision 80) but is embedded
verbatim when short-circuited past (precision 50); lone precision
`"abc"` is embedded verbatim. -/
theorem claim_C6_witness :
    pyInt "abc" = none ∧
    convert_data_type "NUMBER" "" "abc" "1" ORACLE_TYPE_MAPPING
      = .error "ValueError: invalid int for data_precision" ∧
    convert_data_type "NUMBER" "" "80" "abc" ORACLE_TYPE_MAPPING
      = .error "ValueError: invalid int for data_scale" ∧
    convert_data_type "NUMBER" "" "50" "abc" ORACLE_TYPE_MAPPING
      = .ok ⟨"BIGNUMERIC(50, abc)", false, false⟩ ∧
    convert_data_type "NUMBER" "" "abc" "" ORACLE_TYPE_MAPPING
      = .ok ⟨"NUMERIC(abc)", false, false⟩ := by
  refine ⟨rfl, ?_, ?_, ?_, ?_⟩
  · exact ((claim_C6_amended_numeric_raise ORACLE_TYPE_MAPPING
      "NUMBER" "" "abc" "1").2.1 rfl (by decide) (by decide)).1 rfl
  · exact (((claim_C6_amended_numeric_raise ORACLE_TYPE_MAPPING
      "NUMBER" "" "80" "abc").2.1 rfl (by decide) (by decide)).2 80 rfl rfl).1
      (Or.inr (by norm_num))
  · exact (((claim_C6_amended_numeric_raise ORACLE_TYPE_MAPPING
      "NUMBER" "" "50" "abc").2.1 rfl (by decide) (by decide)).2 50 rfl rfl).2
      (by norm_num) (by norm_num)
  · exact (claim_C6_amended_numeric_raise ORACLE_TYPE_MAPPING
      "NUMBER" "" "abc" "").2.2.1 rfl (by decide) rfl

/-- C3 counterexample: on the empty row sequence the assembler emits one
closing annotation (`); -- Column: 0`, the unconditional close of
line 184), contradicting "emits no close statement". -/
theorem claim_C3_counterexample :
    (generate_ddl ([] : List Row) ORACLE_TYPE_MAPPING 0).map
        (fun st => closeCounts st.events) = .ok [0] := by
  rfl

/-- C3 (amended): the empty input sequence does not raise and yields zero
tables, zero columns, zero unknown types and empty counters, but the DDL
body consists of exactly one dangling closing annotation with count 0. -/
theorem claim_C3_amended_empty_input (m : List (String × String)) :
    generate_ddl [] m 0
      = .ok { events := [.closeTable 0 true], current_table := "",
              count_table_column := 0, count_table := 0, count_total_column := 0,
              count_unknown := 0, data_type_counts := [], bq_ods_counts := [] } := by
  rfl

/-- C4: the driver's per-file step resets the global unknown-type counter
(line 258) before calling the assembler, so two runs on the same rows and
dialect yield identical documents and stats whatever counter value a
previous run left behind; the stats are also independent of the embedded
timestamp, which only enters the rendered header. -/
theorem claim_C4_run_independence (rows : List Row) (m : List (String × String))
    (g1 g2 : Nat) (t1 t2 : String) :
    processFile g1 t1 rows m = processFile g2 t1 rows m ∧
    (processFile g1 t1 rows m).map Prod.snd
      = (processFile g2 t2 rows m).map Prod.snd := by
  constructor
  · rfl
  · cases hg : generate_ddl rows m 0 <;>
      simp [processFile, resetCounter, hg, Except.map]

/-- C5: a raw type absent from the dialect table falls back to `STRING`
with the unknown-type diagnostic and without aborting; over a whole run
the unknown counter grows by exactly one per unknown row, and the
raw-type frequency counter still lists every raw type (unknown ones
included) with its occurrence count. -/
theorem claim_C5_unknown_fallback :
    (∀ (m : List (String × String)) (dt dl dp ds : String),
      List.lookup (pyCleanType dt) m = none →
        convert_data_type dt dl dp ds m = .ok ⟨"STRING", true, false⟩) ∧
    (∀ (m : List (String × String)) (rows : List Row) (c0 : Nat) (st : GenState),
      generate_ddl rows m c0 = .ok st →
        st.count_unknown = c0 + (rows.filter (isUnknownRow m)).length ∧
        ∀ k, lookupCount k st.data_type_counts
          = (rows.filter (fun r => r.data_type == k)).length) := by
  constructor
  · intro m dt dl dp ds hlk
    simp only [convert_data_type, hlk]
  · intro m rows c0 st h
    obtain ⟨st₀, hg, rfl⟩ := (generate_ddl_ok rows m c0 st).mp h
    have h1 := genRows_count_unknown m rows (initState c0) st₀ hg
    have h2 := genRows_data_type_counts m rows (initState c0) st₀ hg
    constructor
    · simpa [finalize, initState] using h1
    · intro k
      simpa [finalize, initState, lookupCount] using h2 k

/-- Witness for C5 at `XMLTYPE` (absent from every dialect table). -/
theorem claim_C5_witness :
    convert_data_type "XMLTYPE" "" "" "" ORACLE_TYPE_MAPPING
        = .ok ⟨"STRING", true, false⟩ ∧
    (okD (generate_ddl [rowXml] ORACLE_TYPE_MAPPING 0)).count_unknown = 1 ∧
    lookupCount "XMLTYPE"
        (okD (generate_ddl [rowXml] ORACLE_TYPE_MAPPING 0)).data_type_counts = 1 := by
  refine ⟨claim_C5_unknown_fallback.1 ORACLE_TYPE_MAPPING "XMLTYPE" "" "" "" rfl,
    ?_, ?_⟩
  · have h := (claim_C5_unknown_fallback.2 ORACLE_TYPE_MAPPING [rowXml] 0
      (okD (generate_ddl [rowXml] ORACLE_TYPE_MAPPING 0)) rfl).1
    rw [h]
    rfl
  · have h := (claim_C5_unknown_fallback.2 ORACLE_TYPE_MAPPING [rowXml] 0
      (okD (generate_ddl [rowXml] ORACLE_TYPE_MAPPING 0)) rfl).2 "XMLTYPE"
    rw [h]
    rfl

/-- C2 counterexample: for the rows `[T1, "", T2]` the assembler emits 3
`CREATE OR REPLACE TABLE` openings but only 2 closing annotations (the
block opened for the empty table name is never closed, because the close
guard tests the truthiness of `current_table`). -/
theorem claim_C2_counterexample :
    (generate_ddl [rowT1Date, rowEmptyName, rowT2Date] ORACLE_TYPE_MAPPING 0).map
        (fun st => (countOpens st.events, (closeCounts st.events).length))
      = .ok (3, 2) := by
  rfl

/-- C2 (amended): for every non-empty input sequence in which no record
carries an empty table name, the number of openings equals the number of
closing annotations, and the closing counts are, in order, exactly the
lengths of the maximal runs of consecutive records sharing a table
name. -/
theorem claim_C2_amended_block_integrity (m : List (String × String))
    (rows : List Row) (c0 : Nat) (st : GenState) (hne : rows ≠ [])
    (hn : ∀ r ∈ rows, r.bq_ods ≠ "")
    (h : generate_ddl rows m c0 = .ok st) :
    closeCounts st.events = runLengths (rows.map (fun r => r.bq_ods)) ∧
    countOpens st.events = (runLengths (rows.map (fun r => r.bq_ods))).length := by
  obtain ⟨st₀, hg, rfl⟩ := (generate_ddl_ok rows m c0 st).mp h
  cases rows with
  | nil => exact absurd rfl hne
  | cons r rest =>
    obtain ⟨st₁, hs, hrest⟩ := genRows_cons_ok m (initState c0) r rest st₀ hg
    obtain ⟨cr, hcr, hst₁⟩ := (stepRow_ok m (initState c0) r st₁).mp hs
    have hr : r.bq_ods ≠ "" := hn r (List.mem_cons_self r rest)
    rcases blockStep_cases (initState c0) r with ⟨hb, heq⟩ | ⟨hb, heq⟩
    · exact absurd hb hr
    · have hcur₁ : st₁.current_table = r.bq_ods := by
        simp [hst₁, heq, columnStep]
      have hctc₁ : st₁.count_table_column = 1 := by
        rw [hst₁, heq]
        simp [columnStep, initState]
      have hclose₁ : closeCounts st₁.events = [] := by
        rw [hst₁, heq]
        simp [columnStep, initState]
      have hopen₁ : countOpens st₁.events = 1 := by
        rw [hst₁, heq]
        simp [columnStep, initState]
      obtain ⟨ihc, iho⟩ := genRows_runs m rest st₁ st₀ hrest
        (by rw [hcur₁]; exact hr) (fun x hx => hn x (List.mem_cons_of_mem r hx))
      rw [hclose₁, hcur₁, hctc₁] at ihc
      rw [hopen₁, hcur₁, hctc₁] at iho
      have hf : closeCounts (finalize st₀).events
          = closeCounts st₀.events ++ [st₀.count_table_column] := by
        simp [finalize]
      have hfo : countOpens (finalize st₀).events = countOpens st₀.events := by
        simp [finalize]
      constructor
      · rw [hf, ihc, List.map_cons, runLengths]
        simp
      · rw [hfo, List.map_cons, runLengths]
        simp only [List.nil_append] at ihc iho
        omega

/-- Witness for C2 (amended) on the three-row example `[T1, T1, T2]`. -/
theorem claim_C2_witness :
    ([rowA, rowB, rowC] ≠ ([] : List Row)) ∧
    closeCounts (okD (generate_ddl [rowA, rowB, rowC] ORACLE_TYPE_MAPPING 0)).events
        = runLengths ([rowA, rowB, rowC].map (fun r => r.bq_ods)) ∧
    countOpens (okD (generate_ddl [rowA, rowB, rowC] ORACLE_TYPE_MAPPING 0)).events
        = (runLengths ([rowA, rowB, rowC].map (fun r => r.bq_ods))).length := by
  refine ⟨by decide, ?_⟩
  exact claim_C2_amended_block_integrity ORACLE_TYPE_MAPPING [rowA, rowB, rowC] 0
    (okD (generate_ddl [rowA, rowB, rowC] ORACLE_TYPE_MAPPING 0))
    (by decide) (by decide) rfl

/-- C7 counterexample: a record whose table name is the empty string is
not treated like any other literal name — the identical single-record
input opens one block and counts one table under the name `T`, but opens
none and counts none under the empty name (the cursor is initialised to
`""`, so no "change" is seen). -/
theorem claim_C7_counterexample :
    (generate_ddl [rowEmptyName] ORACLE_TYPE_MAPPING 0).map
        (fun st => (st.count_table, countOpens st.events)) = .ok (0, 0) ∧
    (generate_ddl [rowTName] ORACLE_TYPE_MAPPING 0).map
        (fun st => (st.count_table, countOpens st.events)) = .ok (1, 1) :=
  ⟨rfl, rfl⟩

/-- C7 (amended): a record with an empty table name never raises by
itself (errors come only from type conversion), but it opens a block and
is counted as a table only when the current cursor is non-empty; when the
cursor is the empty string — in particular at the start of the input —
no block is opened and no table is counted for it. -/
theorem claim_C7_amended_empty_name (m : List (String × String)) (st : GenState)
    (r : Row) (hr : r.bq_ods = "") :
    (∀ e, stepRow m st r = .error e →
      convert_data_type r.data_type r.data_length r.data_precision r.data_scale m
        = .error e) ∧
    (st.current_table = "" → ∀ st₁, stepRow m st r = .ok st₁ →
      st₁.count_table = st.count_table ∧
        countOpens st₁.events = countOpens st.events) ∧
    (st.current_table ≠ "" → ∀ st₁, stepRow m st r = .ok st₁ →
      st₁.count_table = st.count_table + 1 ∧
        countOpens st₁.events = countOpens st.events + 1) := by
  refine ⟨fun e he => stepRow_error m st r e he, ?_, ?_⟩
  · intro hc st₁ h1
    obtain ⟨cr, hcr, hst₁⟩ := (stepRow_ok m st r st₁).mp h1
    have hb : r.bq_ods = st.current_table := by rw [hr, hc]
    rcases blockStep_cases st r with ⟨_, heq⟩ | ⟨hb', _⟩
    · constructor <;> simp [hst₁, heq, columnStep]
    · exact absurd hb hb'
  · intro hc st₁ h1
    obtain ⟨cr, hcr, hst₁⟩ := (stepRow_ok m st r st₁).mp h1
    have hb : r.bq_ods ≠ st.current_table := by
      rw [hr]
      exact fun h' => hc h'.symm
    rcases blockStep_cases st r with ⟨hb', _⟩ | ⟨_, heq⟩
    · exact absurd hb' hb
    · constructor <;> simp [hst₁, heq, columnStep, hc]

/-- Witness for C7 (amended): at the initial state a leading empty-name
record leaves the table count at 0. -/
theorem claim_C7_witness :
    (okD (stepRow ORACLE_TYPE_MAPPING (initState 0) rowEmptyName)).count_table
      = 0 := by
  have h := ((claim_C7_amended_empty_name ORACLE_TYPE_MAPPING (initState 0)
      rowEmptyName rfl).2.1) rfl
    (okD (stepRow ORACLE_TYPE_MAPPING (initState 0) rowEmptyName)) rfl
  simpa using h.1

/-- C8: a table name appears in the duplicated-tables listing of the
header if and only if it was opened as a new block more than once, and
the listed count is exactly its number of openings. -/
theorem claim_C8_duplicate_listing (m : List (String × String)) (rows : List Row)
    (c0 : Nat) (st : GenState) (h : generate_ddl rows m c0 = .ok st)
    (name : String) (c : Nat) :
    (name, c) ∈ duplicatedEntries st ↔
      (1 < countOpensName name st.events ∧ c = countOpensName name st.events) := by
  obtain ⟨st₀, hg, rfl⟩ := (generate_ddl_ok rows m c0 st).mp h
  obtain ⟨hnd, hlc⟩ := genRows_bq_ods_counts m rows (initState c0) st₀ hg
    (by simp [initState, KeysNodup]) (fun k => by simp [initState, lookupCount])
  have hfo : ∀ k, countOpensName k (finalize st₀).events
      = countOpensName k st₀.events := by
    intro k
    simp [finalize]
  have hfb : (finalize st₀).bq_ods_counts = st₀.bq_ods_counts := rfl
  constructor
  · intro hmem
    have hmem' : (name, c) ∈ st₀.bq_ods_counts ∧ 1 < c := by
      simpa [duplicatedEntries, hfb, List.mem_filter] using hmem
    have hcv : lookupCount name st₀.bq_ods_counts = c :=
      mem_lookupCount _ hnd _ _ hmem'.1
    rw [hfo, ← hlc name, hcv]
    exact ⟨hmem'.2, rfl⟩
  · rintro ⟨hgt, rfl⟩
    rw [hfo] at hgt
    have hc' : lookupCount name st₀.bq_ods_counts = countOpensName name st₀.events :=
      hlc name
    have hpos : 0 < lookupCount name st₀.bq_ods_counts := by omega
    have hmem := lookupCount_pos_mem name st₀.bq_ods_counts hpos
    rw [hc'] at hmem
    simp only [duplicatedEntries, hfb, List.mem_filter, hfo]
    exact ⟨hmem, by simpa using hgt⟩

/-- Witness for C8 on the rows `[T1, T2, T1]`: `T1` opens twice and shows
up in the duplicate listing with count 2. -/
theorem claim_C8_witness :
    1 < countOpensName "T1"
        (okD (generate_ddl [rowT1Date, rowT2Date, rowT1Again]
          ORACLE_TYPE_MAPPING 0)).events ∧
    ("T1", 2) ∈ duplicatedEntries
        (okD (generate_ddl [rowT1Date, rowT2Date, rowT1Again]
          ORACLE_TYPE_MAPPING 0)) := by
  constructor
  · decide
  · exact (claim_C8_duplicate_listing ORACLE_TYPE_MAPPING
      [rowT1Date, rowT2Date, rowT1Again] 0
      (okD (generate_ddl [rowT1Date, rowT2Date, rowT1Again] ORACLE_TYPE_MAPPING 0))
      rfl "T1" 2).mpr ⟨by decide, by decide⟩

end DDLGen
